import Mathlib

/-!
Verification development for the semantic-parsing stage of the assembler
front end (`tools/sources/assembler/assembler/parser.py`).

The Python module is shallowly embedded: each function of `parser.py` is
translated into a Lean function of the same name, raising exceptions is
modelled with `Except`, and the mutable parse state (`ip`, `symbol_table`,
`errors`, `instructions`) is threaded explicitly.  Collaborator modules
that are imported by `parser.py` but whose sources are not part of the
repository snapshot (`errors`, `sized_numbers`, `token_enums`,
`parseable`) are modelled from the specification; every such definition
carries a doc comment saying so.
-/

namespace AssemblerParser

/-- Modelled from the spec: the fixed finite register set of `token_enums.Register`
(the concrete member list is external to the visible module; four representative
registers are used). -/
inductive Reg : Type
  | R1 | R2 | R3 | R4
  deriving DecidableEq, Repr

def Reg.text : Reg → String
  | .R1 => "R1"
  | .R2 => "R2"
  | .R3 => "R3"
  | .R4 => "R4"

/-- Modelled from the spec: the `token_enums.Syntax` enum, whose member names are
the literal source characters `","  ":"  "["  "]"  "+"  "<<"  ">>"`. -/
inductive Syn : Type
  | comma | colon | lbrack | rbrack | plus | shl | shr
  deriving DecidableEq, Repr

def Syn.text : Syn → String
  | .comma => ","
  | .colon => ":"
  | .lbrack => "["
  | .rbrack => "]"
  | .plus => "+"
  | .shl => "<<"
  | .shr => ">>"

/-- Modelled from the spec: `token_enums.ShiftType`, enumerated `{"<<", ">>"}`. -/
inductive ShiftType : Type
  | shl | shr
  deriving DecidableEq, Repr

/-- Modelled from the spec: `token_enums.TokenType` with members INSTRUCTION,
REGISTER, UINT, STRING, SYNTAX (here `SYN`), LABEL. -/
inductive TokenType : Type
  | INSTRUCTION | REGISTER | UINT | STRING | SYN | LABEL
  deriving DecidableEq, Repr

/-- Lower-cased member name, as used by `token_type_check` for messages
(`token_type.name.lower()`). -/
def TokenType.lname : TokenType → String
  | .INSTRUCTION => "instruction"
  | .REGISTER => "register"
  | .UINT => "uint"
  | .STRING => "string"
  | .SYN => "syntax"
  | .LABEL => "label"

/-- The closed set of operand-parser kinds (`token_enums.instruction_arg_types`):
Register, PointerDeref, Uint16, Uint24, Shift. -/
inductive ArgKind : Type
  | register | pointerDeref | uint16 | uint24 | shift
  deriving DecidableEq, Repr

/-- Modelled from the spec: one member of the opcode enum
(`token_enums.Instruction`).  `instruction.name` is the mnemonic and
`instruction.value` the declared ordered operand-type signature; each position
is an ordered list of alternative operand kinds (the code wraps a lone type
into a one-element tuple, so a singleton list models a single declared type). -/
structure Opcode : Type where
  name : String
  value : List (List ArgKind)
  deriving DecidableEq, Repr

/-- The type-dependent payload of `Token.value`. -/
inductive TokenValue : Type
  | instr (op : Opcode)
  | reg (r : Reg)
  | uint (n : Nat)
  | str (s : String)
  | syn (s : Syn)
  | label (s : String)
  deriving DecidableEq, Repr

/-- Modelled from the spec: `token_enums.Token`
`{type, value, text (original source slice), line}`. -/
structure Token : Type where
  type : TokenType
  value : TokenValue
  text : String
  line : Nat
  deriving DecidableEq, Repr

/-- `token_enums.Shift`: `{type: ShiftType, register: Register, amount: Uint5}`.
The 5-bit amount is carried as a `Nat` already checked against `MAX 5`. -/
structure Shift : Type where
  type : ShiftType
  register : Reg
  amount : Nat
  deriving DecidableEq, Repr

/-- `token_enums.PointerDeref`: `{register, increment : Uint16 | Shift}`.
The 16-bit increment is carried as a `Nat` already checked against `MAX 16`. -/
structure PointerDeref : Type where
  register : Reg
  increment : Nat ⊕ Shift
  deriving DecidableEq, Repr

/-- A parsed operand value (one element of `Instruction.args`). -/
inductive ArgValue : Type
  | reg (r : Reg)
  | ptr (p : PointerDeref)
  | num16 (n : Nat)
  | num24 (n : Nat)
  | shiftV (s : Shift)
  deriving DecidableEq, Repr

/-- `parser.Instruction`: a NamedTuple of the opcode and its parsed args. -/
structure Instruction : Type where
  type : Opcode
  args : List ArgValue
  deriving DecidableEq, Repr

/-- `parser.InstructionsNT`: instructions in program order plus the symbol
table.  The Python `dict` is modelled as an insertion-ordered association
list with unique keys. -/
structure InstructionsNT : Type where
  instructions : List Instruction
  symbol_table : List (String × Nat)
  deriving DecidableEq, Repr

/-- A Python exception as observable from `parse`.  `parseError m l` is
`ParseError(message, line)`; `collected es` is `ParseError.collect_errors`
over the queued `(message, line)` entries (modelled from the spec:
the `errors` module keeps each underlying error with its line number);
`indexError`, `assertError`, `valueError`, `nameError` are the unstructured
interpreter exceptions `IndexError`, `AssertionError`, `ValueError`,
`NameError`, which `except ParseError` clauses do not catch. -/
inductive PyExc : Type
  | parseError (msg : String) (line : Nat)
  | collected (entries : List (String × Nat))
  | indexError
  | assertError
  | valueError
  | nameError
  deriving DecidableEq, Repr

/-- Whether an exception is (a subclass of) `ParseError`, i.e. caught by
`except ParseError`. -/
def PyExc.isParseError : PyExc → Bool
  | .parseError _ _ => true
  | .collected _ => true
  | _ => false

/-- `exc.args[0]` of a caught `ParseError`, as the `(message, line)` entry the
error was built from (modelled from the spec: the error aggregator's entries
are `(message, line)` pairs).  Only single `parseError`s reach the places this
is used; the `collected` branch is unreachable there. -/
def PyExc.entryD : PyExc → String × Nat
  | .parseError m l => (m, l)
  | _ => ("", 0)

/-- Modelled from the spec: `MAX(width) = 2^width − 1` of
`sized_numbers.PositiveSizedNumber`. -/
def sizedMAX (width : Nat) : Nat := 2 ^ width - 1

/-- Outcome of the `PositiveSizedNumber` constructor on a token payload. -/
inductive NumErr : Type
  | overflow
  | notNumeric
  deriving DecidableEq, Repr

/-- The numeric value of one decimal digit character, if it is one. -/
def charDigit? (c : Char) : Option Nat :=
  if 48 ≤ c.toNat ∧ c.toNat ≤ 57 then some (c.toNat - 48) else none

/-- Modelled from the spec: conversion of a numeric string to its integer
value (Python `int` applied to a decimal-digit string), `none` when the
string is not numeric. -/
def decStringToNat? (s : String) : Option Nat :=
  match s.data with
  | [] => none
  | cs =>
    cs.foldl
      (fun acc c =>
        match acc, charDigit? c with
        | some n, some d => some (n * 10 + d)
        | _, _ => none)
      (some 0)

/-- Modelled from the spec: constructing `sized_numbers.PositiveSizedNumber`
of a given width from a token's value — accepts a raw integer or a numeric
string, fails with `OverflowError_` (`.overflow`) when the numeric value
exceeds `MAX(width)`, and with `ValueError` (`.notNumeric`) when the payload
is not numeric at all. -/
def sizedOfValue (width : Nat) (v : TokenValue) : Except NumErr Nat :=
  match v with
  | .uint n => if n ≤ sizedMAX width then .ok n else .error .overflow
  | .str s =>
    match decStringToNat? s with
    | some n => if n ≤ sizedMAX width then .ok n else .error .overflow
    | none => .error .notNumeric
  | _ => .error .notNumeric

/-- `comma_split` (parser.py:40-49): split a token list on `,` syntax tokens;
the tail group is yielded only when non-empty, but empty groups between
commas (and before a leading comma) are yielded. -/
def commaSplitAux (current : List Token) : List Token → List (List Token)
  | [] => if current.isEmpty then [] else [current]
  | t :: rest =>
    if t.type = TokenType.SYN ∧ t.value = TokenValue.syn Syn.comma then
      current :: commaSplitAux [] rest
    else
      commaSplitAux (current ++ [t]) rest

def comma_split (tokens : List Token) : List (List Token) :=
  commaSplitAux [] tokens

/-- `empty_token_check` (parser.py:52-57). -/
def empty_token_check (tokens : List Token) (line : Nat) :
    Except PyExc (List Token) :=
  if tokens.isEmpty then .error (.parseError "Empty operand" line) else .ok tokens

/-- Concatenation of the original text of a token list (used in messages). -/
def joinTexts (tokens : List Token) : String :=
  tokens.foldl (fun acc t => acc ++ t.text) ""

/-- `extact_token` (parser.py:60-66) — the source's own spelling. -/
def extact_token (one_token : List Token) (line : Nat) : Except PyExc Token := do
  let _ ← empty_token_check one_token line
  match one_token with
  | [] => .error .indexError
  | t :: rest =>
    if rest.length + 1 > 1 then
      .error (.parseError ("Extra text \"" ++ joinTexts rest ++ "\"") line)
    else
      .ok t

/-- `token_type_check` (parser.py:69-80). -/
def token_type_check (token : Token) (token_types : List TokenType) (line : Nat) :
    Except PyExc Token :=
  if token.type ∈ token_types then .ok token
  else
    .error (.parseError
      ("Token \"" ++ token.text ++ "\" instead of " ++
        String.intercalate " or " (token_types.map TokenType.lname))
      line)

/-- The overflow message of `extract_token_num` (parser.py:92-96), including
the source's misspelling of "orignal". -/
def overflowMsg (value : Nat) (width : Nat) (text : String) : String :=
  "Number or string " ++ toString value ++ " is too large. " ++
  "The max size for this operand is " ++ toString (sizedMAX width) ++ ". " ++
  "The orignal text was " ++ text ++ "."

/-- `extract_token_num` (parser.py:86-97): type-check the token as UINT or
STRING, construct the sized number, and on `OverflowError_` run
`assert isinstance(token.value, int)` before building the ParseError — so a
STRING token whose numeric value overflows fails that assert
(`AssertionError`), and only a UINT token produces the overflow ParseError. -/
def extract_token_num (token : Token) (width : Nat) (line : Nat) :
    Except PyExc Nat := do
  let t ← token_type_check token [TokenType.UINT, TokenType.STRING] line
  match sizedOfValue width t.value with
  | .ok n => .ok n
  | .error .overflow =>
    match t.value with
    | .uint v => .error (.parseError (overflowMsg v width token.text) line)
    | _ => .error .assertError
  | .error .notNumeric => .error .valueError

/-- `parse_Register` (parser.py:103-108): exactly one token of type REGISTER. -/
def parse_Register (tokens : List Token) (line : Nat) : Except PyExc Reg := do
  let t0 ← extact_token tokens line
  let t ← token_type_check t0 [TokenType.REGISTER] line
  match t.value with
  | .reg r => .ok r
  | _ => .error .assertError

/-- Modelled from the spec: `Register.parse` applied to a single token (the
`Parseable` dispatch of `parseable`/`token_enums`, not under src/): the
token's type must be REGISTER (else the wrong-token-type failure of
`token_type_check`), and its register value is returned. -/
def registerParseTok (token : Token) (line : Nat) : Except PyExc Reg := do
  let t ← token_type_check token [TokenType.REGISTER] line
  match t.value with
  | .reg r => .ok r
  | _ => .error .assertError

/-- `parse_number` (parser.py:136-139), also bound as `parse_Uint24` and
`parse_Uint16` (parser.py:142). -/
def parse_number (width : Nat) (tokens : List Token) (line : Nat) :
    Except PyExc Nat := do
  let t ← extact_token tokens line
  extract_token_num t width line

/-- `parse_Shift` (parser.py:145-159). -/
def parse_Shift (tokens : List Token) (line : Nat) : Except PyExc Shift := do
  let _ ← empty_token_check tokens line
  match tokens with
  | [] => .error .indexError
  | t0 :: rest =>
    let register ← registerParseTok t0 line
    match rest with
    | [] => .ok ⟨ShiftType.shl, register, 0⟩
    | t1 :: rest2 =>
      if t1.value ≠ TokenValue.syn Syn.shr ∧ t1.value ≠ TokenValue.syn Syn.shl then
        .error (.parseError ("Invalid operator " ++ t1.text) line)
      else do
        let shift_type : ShiftType :=
          if t1.value = TokenValue.syn Syn.shl then ShiftType.shl else ShiftType.shr
        let t2 ← extact_token rest2 line
        let amount ← extract_token_num t2 5 line
        .ok ⟨shift_type, register, amount⟩

/-- Modelled from the spec: `errors.exception_chain` (not under src/),
specialised to the call in `parse_PointerDeref`: try `Uint16.parse` then
`Shift.parse` in order, first success wins; a `ParseError` from a candidate
moves on to the next, any other exception propagates; when every candidate
fails the supplied fallback error is raised. -/
def exceptionChainIncrement (tokens : List Token) (line : Nat)
    (fallback : PyExc) : Except PyExc (Nat ⊕ Shift) :=
  match parse_number 16 tokens line with
  | .ok n => .ok (.inl n)
  | .error e =>
    if e.isParseError then
      match parse_Shift tokens line with
      | .ok s => .ok (.inr s)
      | .error e2 => if e2.isParseError then .error fallback else .error e2
    else .error e

/-- `parse_PointerDeref` (parser.py:111-133).  The invalid-dereference
message interpolates the Python repr of the token list; it is rendered here
as the concatenated token texts (no claim depends on its exact form). -/
def parse_PointerDeref (tokens : List Token) (line : Nat) :
    Except PyExc PointerDeref := do
  let _ ← empty_token_check tokens line
  match tokens with
  | [] => .error .indexError
  | t0 :: rest =>
    let lastTok := List.getLastD (t0 :: rest) t0
    if t0.value ≠ TokenValue.syn Syn.lbrack ∨ lastTok.value ≠ TokenValue.syn Syn.rbrack then
      .error (.parseError ("Invalid pointer dereference " ++ joinTexts tokens) line)
    else
      match rest with
      | [] => .error .indexError
      | t1 :: rest2 => do
        let register ← registerParseTok t1 line
        if tokens.length > 3 then
          match rest2 with
          | [] => .error .indexError
          | t2 :: _ =>
            if t2.value ≠ TokenValue.syn Syn.plus then
              .error (.parseError ("Expected \"+\" sign, instead got " ++ t2.text) line)
            else do
              let mid := (tokens.drop 3).dropLast
              let increment ← exceptionChainIncrement mid line
                (.parseError ("Increment \"" ++ joinTexts mid ++ "\" is invalid") line)
              .ok ⟨register, increment⟩
        else
          .ok ⟨register, .inl 0⟩

/-- Dispatch `arg_type.parse(arg, line)` for one operand kind, as used from
`parse_args` (each kind's `parse` routes to the visitor of the same name in
parser.py). -/
def argParse (kind : ArgKind) (tokens : List Token) (line : Nat) :
    Except PyExc ArgValue :=
  match kind with
  | .register => (parse_Register tokens line).map ArgValue.reg
  | .pointerDeref => (parse_PointerDeref tokens line).map ArgValue.ptr
  | .uint16 => (parse_number 16 tokens line).map ArgValue.num16
  | .uint24 => (parse_number 24 tokens line).map ArgValue.num24
  | .shift => (parse_Shift tokens line).map ArgValue.shiftV

/-- The inner `for arg_type in arg_types` trial loop of `parse_args`
(parser.py:173-178).  Each attempt first evaluates `arg[0].line`, which
raises `IndexError` on an empty group; a `ParseError` binds the loop
variable `error` (threaded here as `lastErr`) and moves to the next
alternative; any other exception propagates.  Returns `some value` on the
first success, `none` when the alternatives are exhausted. -/
def tryAlts (alts : List ArgKind) (arg : List Token)
    (lastErr : Option (String × Nat)) :
    Except PyExc (Option ArgValue × Option (String × Nat)) :=
  match alts with
  | [] => .ok (none, lastErr)
  | a :: rest =>
    match arg with
    | [] => .error .indexError
    | t0 :: _ =>
      match argParse a arg t0.line with
      | .ok v => .ok (some v, lastErr)
      | .error e =>
        if e.isParseError then tryAlts rest arg (some e.entryD)
        else .error e

/-- The outer loop of `parse_args` (parser.py:168-182): one iteration per
zipped (position, group) pair.  When a position's alternatives are all
exhausted, the last bound `error` is appended (an unbound `error` — possible
only for a position with an empty alternatives list before any failure —
is Python's `NameError`); a successfully parsed value is yielded only while
the per-instruction `errors` list is still empty. -/
def parseArgsLoop :
    List (List ArgKind × List Token) → Option (String × Nat) →
    List (String × Nat) → List ArgValue →
    Except PyExc (List (String × Nat) × List ArgValue)
  | [], _, errors, acc => .ok (errors, acc)
  | (alts, arg) :: rest, lastErr, errors, acc =>
    match tryAlts alts arg lastErr with
    | .error e => .error e
    | .ok (some v, lastErr2) =>
      parseArgsLoop rest lastErr2 errors (if errors.isEmpty then acc ++ [v] else acc)
    | .ok (none, lastErr2) =>
      match lastErr2 with
      | some err => parseArgsLoop rest lastErr2 (errors ++ [err]) acc
      | none => .error .nameError

/-- `parse_args` (parser.py:162-184), fully evaluated (as by `list(args)` at
its call site): zip the declared positions with the raw groups (stopping at
the shorter), run the trial loop, and raise `ParseError.collect_errors` over
the per-position failures when any position failed. -/
def parse_args (parser_types : List (List ArgKind))
    (args : List (List Token)) : Except PyExc (List ArgValue) :=
  match parseArgsLoop (parser_types.zip args) none [] [] with
  | .error e => .error e
  | .ok (errors, acc) =>
    if errors.isEmpty then .ok acc else .error (.collected errors)

/-- The whole-parse mutable state of `parse` (parser.py:188-191). -/
structure ParseState : Type where
  instructions : List Instruction
  symbol_table : List (String × Nat)
  ip : Nat
  errors : List (String × Nat)
  deriving DecidableEq, Repr

def initState : ParseState := ⟨[], [], 0, []⟩

/-- Python-`dict` assignment on the insertion-ordered association list:
an existing key keeps its position and gets the new value, a new key is
appended. -/
def dictInsert (d : List (String × Nat)) (k : String) (v : Nat) :
    List (String × Nat) :=
  if d.any (fun p => p.1 = k) then
    d.map (fun p => if p.1 = k then (k, v) else p)
  else d ++ [(k, v)]

/-- Python-`dict` lookup on the association list. -/
def dictLookup (d : List (String × Nat)) (k : String) : Option Nat :=
  (d.find? (fun p => p.1 = k)).map (fun p => p.2)

/-- The arity-mismatch message of `parse` (parser.py:208-211). -/
def arityMsg (op : Opcode) (given : Nat) : String :=
  "Opcode " ++ op.name ++ " takes " ++ toString op.value.length ++
  " arguments, but was given " ++ toString given ++ " arguments."

/-- One iteration of the `for line in tokens` loop of `parse`
(parser.py:192-216).  On an uncaught exception the state at the moment of
the raise is returned alongside it (so that what had been recorded into
`errors`, and the already-advanced `ip`, remain observable).  The `assert`
statements of the source are modelled as `assertError` on violation; an
empty line fails the `line[0]` subscript with `indexError`. -/
def stepLine (s : ParseState) (line : List Token) :
    Except (PyExc × ParseState) ParseState :=
  match line with
  | [] => .error (.indexError, s)
  | t0 :: rest =>
    let line_num := t0.line
    let lastTok := List.getLastD (t0 :: rest) t0
    if lastTok.value = TokenValue.syn Syn.colon then
      if lastTok.type = TokenType.SYN ∧ line.length = 2 ∧ t0.type = TokenType.LABEL then
        match t0.value with
        | .label name =>
          .ok { s with symbol_table := dictInsert s.symbol_table name (s.ip + 1) }
        | .str name =>
          -- `assert isinstance(line[0].value, str)` also passes for a STRING payload
          .ok { s with symbol_table := dictInsert s.symbol_table name (s.ip + 1) }
        | _ => .error (.assertError, s)
      else .error (.assertError, s)
    else
      let s1 := { s with ip := s.ip + 32 }
      if t0.type = TokenType.INSTRUCTION then
        match t0.value with
        | .instr op =>
          let raw_args := comma_split rest
          let s2 :=
            if raw_args.length ≠ op.value.length then
              { s1 with errors := s1.errors ++ [(arityMsg op raw_args.length, line_num)] }
            else s1
          match parse_args op.value raw_args with
          | .error e => .error (e, s2)
          | .ok args =>
            .ok { s2 with instructions := s2.instructions ++ [⟨op, args⟩] }
        | _ => .error (.assertError, s1)
      else .error (.assertError, s1)

/-- The line loop of `parse`, threading the state; an exception aborts the
remaining lines. -/
def runLines (s : ParseState) : List (List Token) → Except (PyExc × ParseState) ParseState
  | [] => .ok s
  | l :: rest =>
    match stepLine s l with
    | .error es => .error es
    | .ok s2 => runLines s2 rest

/-- `parse` (parser.py:187-219): run all lines; if an exception escaped the
loop it is what the caller sees; otherwise a non-empty `errors` list raises
`ParseError.collect_errors(errors)` and an empty one returns the
`InstructionsNT`. -/
def parse (lines : List (List Token)) : Except PyExc InstructionsNT :=
  match runLines initState lines with
  | .error (e, _) => .error e
  | .ok s =>
    if s.errors.isEmpty then .ok ⟨s.instructions, s.symbol_table⟩
    else .error (.collected s.errors)

/-- The parse state when control leaves the line loop (at the raise point
when an exception escapes), used to state which errors had been recorded. -/
def finalState (lines : List (List Token)) : ParseState :=
  match runLines initState lines with
  | .error (_, s) => s
  | .ok s => s

/-- The errors queued into `parse`'s `errors` list over a whole run. -/
def recordedErrors (lines : List (List Token)) : List (String × Nat) :=
  (finalState lines).errors

/-! ### Token and line constructors for concrete programs -/

def instrTok (op : Opcode) (l : Nat) : Token :=
  ⟨TokenType.INSTRUCTION, TokenValue.instr op, op.name, l⟩

def regTok (r : Reg) (l : Nat) : Token :=
  ⟨TokenType.REGISTER, TokenValue.reg r, r.text, l⟩

def uintTok (n : Nat) (l : Nat) : Token :=
  ⟨TokenType.UINT, TokenValue.uint n, toString n, l⟩

def strTok (s : String) (text : String) (l : Nat) : Token :=
  ⟨TokenType.STRING, TokenValue.str s, text, l⟩

def synTok (y : Syn) (l : Nat) : Token :=
  ⟨TokenType.SYN, TokenValue.syn y, y.text, l⟩

def labelTok (s : String) (l : Nat) : Token :=
  ⟨TokenType.LABEL, TokenValue.label s, s, l⟩

/-- A label-definition line `name:`. -/
def mkLabelLine (name : String) (l : Nat) : List Token :=
  [labelTok name l, synTok Syn.colon l]

/-- Modelled from the spec: representative members of the external
instruction-set definition table (out of scope for the visible module):
a three-register `ADD` and a two-operand `MOV` whose second position admits
several operand kinds. -/
def ADD : Opcode := ⟨"ADD", [[ArgKind.register], [ArgKind.register], [ArgKind.register]]⟩

def MOV : Opcode :=
  ⟨"MOV", [[ArgKind.register], [ArgKind.register, ArgKind.pointerDeref, ArgKind.uint16]]⟩

/-- The well-formed line `ADD R1, R2, R3`. -/
def addLine (l : Nat) : List Token :=
  [instrTok ADD l, regTok Reg.R1 l, synTok Syn.comma l,
   regTok Reg.R2 l, synTok Syn.comma l, regTok Reg.R3 l]

/-- The parsed `ADD R1, R2, R3` instruction record. -/
def addInstr : Instruction :=
  ⟨ADD, [ArgValue.reg Reg.R1, ArgValue.reg Reg.R2, ArgValue.reg Reg.R3]⟩

/-- The instruction pointer observable after one line step, whether the step
returned normally or raised. -/
def ipAfter : Except (PyExc × ParseState) ParseState → Nat
  | .ok s => s.ip
  | .error (_, s) => s.ip

/-! ### Helper lemmas -/

theorem dictLookup_dictInsert (d : List (String × Nat)) (k : String) (v : Nat) :
    dictLookup (dictInsert d k v) k = some v := by
  induction d with
  | nil => simp [dictInsert, dictLookup]
  | cons p d ih =>
    by_cases hp : p.1 = k
    · simp [dictInsert, dictLookup, hp]
    · cases hA : d.any (fun q => decide (q.1 = k)) with
      | false =>
        have hins : dictInsert (p :: d) k v = p :: (d ++ [(k, v)]) := by
          simp [dictInsert, hp, hA]
        have htail : dictInsert d k v = d ++ [(k, v)] := by
          simp [dictInsert, hA]
        rw [hins]
        have ht : dictLookup (p :: (d ++ [(k, v)])) k = dictLookup (d ++ [(k, v)]) k := by
          simp [dictLookup, List.find?_cons, hp]
        rw [ht, ← htail]
        exact ih
      | true =>
        have hins : dictInsert (p :: d) k v =
            p :: (d.map fun q => if q.1 = k then (k, v) else q) := by
          simp [dictInsert, hp, hA]
        have htail : dictInsert d k v = d.map fun q => if q.1 = k then (k, v) else q := by
          simp [dictInsert, hA]
        rw [hins]
        have ht : dictLookup (p :: (d.map fun q => if q.1 = k then (k, v) else q)) k =
            dictLookup (d.map fun q => if q.1 = k then (k, v) else q) k := by
          simp [dictLookup, List.find?_cons, hp]
        rw [ht, ← htail]
        exact ih

theorem runLines_append (s : ParseState) (xs ys : List (List Token)) :
    runLines s (xs ++ ys) =
      match runLines s xs with
      | .ok s2 => runLines s2 ys
      | .error es => .error es := by
  induction xs generalizing s with
  | nil => simp [runLines]
  | cons l rest ih =>
    simp only [List.cons_append, runLines]
    cases stepLine s l with
    | error es => simp
    | ok s2 => simpa using ih s2

/-! ### Concrete programs used by the claims -/

/-- Line 1: `ADD 5, R2, R3` — correct arity, first operand malformed. -/
def badLine1 : List Token :=
  [instrTok ADD 1, uintTok 5 1, synTok Syn.comma 1,
   regTok Reg.R2 1, synTok Syn.comma 1, regTok Reg.R3 1]

/-- Line 2: `ADD 7, R2, R3` — correct arity, first operand malformed. -/
def badLine2 : List Token :=
  [instrTok ADD 2, uintTok 7 2, synTok Syn.comma 2,
   regTok Reg.R2 2, synTok Syn.comma 2, regTok Reg.R3 2]

/-- `ADD 5, R2` — wrong arity (2 of 3 groups) and a malformed first operand. -/
def arityBadLine : List Token :=
  [instrTok ADD 1, uintTok 5 1, synTok Syn.comma 1, regTok Reg.R2 1]

/-- A file whose first line records an arity error and whose second line
(`MOV ,`) makes the dispatcher crash with `IndexError`. -/
def c4file : List (List Token) :=
  [[instrTok ADD 1], [instrTok MOV 2, synTok Syn.comma 2]]

/-! ### Claims -/

/-- Claim C3: a line of an instruction token followed by a single comma token
comma-splits into one empty operand group, and the dispatcher's evaluation of
`arg[0].line` on that empty group raises `IndexError`, which is not one of
the structured parse failures (`isParseError` is false, so in particular it
is not the `EmptyOperand` `ParseError`). -/
theorem C3_empty_group_index_error :
    comma_split [synTok Syn.comma 1] = [[]] ∧
    parse [[instrTok MOV 1, synTok Syn.comma 1]] = .error PyExc.indexError ∧
    PyExc.indexError.isParseError = false :=
  ⟨rfl, rfl, rfl⟩

/-- Claim C1, counterexample: a file of two independently operand-malformed
lines (`badLine1` on line 1, `badLine2` on line 2) does not produce one
aggregate failure with an entry per malformed line — the dispatcher failure
of line 1 propagates out of `parse` at once, so the failure lists only the
line-1 entry and line 2 is never reported. -/
theorem C1_counterexample :
    parse [badLine1, badLine2] =
      .error (.collected [("Token \"5\" instead of register", 1)]) :=
  rfl

/-- Claim C1 (amended): a failure raised by the Argument Dispatcher for an
instruction line is not queued into the parse-wide error list — it aborts the
parse immediately: whatever exception a line's step raises becomes the result
of `parse`, and all later lines are ignored. -/
theorem C1_amended_dispatcher_failure_aborts
    (pre : List (List Token)) (bad : List Token) (post : List (List Token))
    (s sErr : ParseState) (e : PyExc)
    (hpre : runLines initState pre = .ok s)
    (hbad : stepLine s bad = .error (e, sErr)) :
    parse (pre ++ bad :: post) = .error e := by
  unfold parse
  rw [runLines_append, hpre]
  simp only [runLines, hbad]

/-- Witness for C1: instantiating the amended theorem on the two-bad-line
file shows the parse result is exactly line 1's dispatcher aggregate. -/
theorem C1_witness :
    parse ([] ++ badLine1 :: [badLine2]) =
      .error (.collected [("Token \"5\" instead of register", 1)]) :=
  C1_amended_dispatcher_failure_aborts [] badLine1 [badLine2] initState
    ⟨[], [], 32, []⟩ (.collected [("Token \"5\" instead of register", 1)]) rfl rfl

/-- Claim C2, counterexample: on `arityBadLine` the arity-mismatch entry is
recorded into the parse-wide list, but the dispatcher's own aggregate (the
operand-level error only) is what `parse` raises — the final failure does not
contain the arity error alongside the operand error. -/
theorem C2_counterexample :
    parse [arityBadLine] =
      .error (.collected [("Token \"5\" instead of register", 1)]) ∧
    recordedErrors [arityBadLine] =
      [("Opcode ADD takes 3 arguments, but was given 2 arguments.", 1)] :=
  ⟨rfl, rfl⟩

/-- Claim C2 (amended): on an instruction line whose comma-split group count
differs from the opcode's arity, the arity-mismatch failure naming the
opcode, expected count and actual count is queued and operand parsing still
proceeds; but when the dispatcher then fails, its failure is raised
immediately (carrying the queued arity entry only in the aborted state), so
arity and operand errors are never combined into one reported aggregate. -/
theorem C2_amended_arity_recorded_dispatcher_preempts
    (s : ParseState) (op : Opcode) (rest : List Token) (l : Nat)
    (hlast : (List.getLastD (instrTok op l :: rest) (instrTok op l)).value ≠
      TokenValue.syn Syn.colon)
    (hmis : (comma_split rest).length ≠ op.value.length) :
    stepLine s (instrTok op l :: rest) =
      match parse_args op.value (comma_split rest) with
      | .error e =>
        .error (e, ⟨s.instructions, s.symbol_table, s.ip + 32,
          s.errors ++ [(arityMsg op (comma_split rest).length, l)]⟩)
      | .ok args =>
        .ok ⟨s.instructions ++ [⟨op, args⟩], s.symbol_table, s.ip + 32,
          s.errors ++ [(arityMsg op (comma_split rest).length, l)]⟩ := by
  cases hp : parse_args op.value (comma_split rest) with
  | error e =>
    simp only [stepLine]
    rw [if_neg hlast]
    simp [instrTok, hmis, hp]
  | ok args =>
    simp only [stepLine]
    rw [if_neg hlast]
    simp [instrTok, hmis, hp]

/-- Witness for C2: the amended theorem applied to `arityBadLine` shows the
step raises the dispatcher aggregate while the arity entry sits queued in the
aborted state. -/
theorem C2_witness :
    stepLine initState arityBadLine =
      .error (.collected [("Token \"5\" instead of register", 1)],
        { instructions := [], symbol_table := [], ip := 32,
          errors := [("Opcode ADD takes 3 arguments, but was given 2 arguments.", 1)] }) := by
  have h := C2_amended_arity_recorded_dispatcher_preempts initState ADD
    [uintTok 5 1, synTok Syn.comma 1, regTok Reg.R2 1] 1 (by decide) (by decide)
  exact h

/-- Claim C4, counterexample: on `c4file` errors are recorded (both arity
entries), yet `parse` raises `IndexError` — not a single aggregate failure of
the recorded errors (it is not even a `ParseError`).  Zero instructions and
zero symbol-table entries are still surfaced, but the raised failure is not
the aggregate the claim promises. -/
theorem C4_counterexample :
    parse c4file = .error PyExc.indexError ∧
    recordedErrors c4file =
      [("Opcode ADD takes 3 arguments, but was given 0 arguments.", 1),
       ("Opcode MOV takes 2 arguments, but was given 1 arguments.", 2)] ∧
    PyExc.indexError.isParseError = false :=
  ⟨rfl, rfl, rfl⟩

/-- Claim C4 (amended): whenever any error is recorded, `parse` returns no
`InstructionsNT` at all — some failure is raised, and it is the single
aggregate of every recorded error exactly when the line loop runs to
completion without a mid-file exception (a dispatcher failure or an
`IndexError` otherwise preempts and replaces that aggregate). -/
theorem C4_amended_no_partial_results (lines : List (List Token))
    (h : recordedErrors lines ≠ []) :
    (∃ e, parse lines = .error e) ∧
    (∀ s, runLines initState lines = .ok s →
      parse lines = .error (.collected (recordedErrors lines))) := by
  constructor
  · cases hr : runLines initState lines with
    | error es =>
      exact ⟨es.1, by simp [parse, hr]⟩
    | ok s =>
      have hne : s.errors ≠ [] := by
        simpa [recordedErrors, finalState, hr] using h
      refine ⟨.collected s.errors, ?_⟩
      simp [parse, hr, List.isEmpty_iff, hne]
  · intro s hs
    have hne : s.errors ≠ [] := by
      simpa [recordedErrors, finalState, hs] using h
    simp [parse, hs, recordedErrors, finalState, List.isEmpty_iff, hne]

/-- Witness for C4: the amended theorem applied to a file with one
arity-mismatch line yields the aggregate of that recorded error. -/
theorem C4_witness :
    parse [[instrTok ADD 1]] =
      .error (.collected [("Opcode ADD takes 3 arguments, but was given 0 arguments.", 1)]) := by
  have h := (C4_amended_no_partial_results [[instrTok ADD 1]] (by decide)).2
  exact h ⟨[⟨ADD, []⟩], [], 32,
    [("Opcode ADD takes 3 arguments, but was given 0 arguments.", 1)]⟩ rfl

/-- Claim C8: evaluation of the immediate parser at the claim's inputs over
width 16.  An in-range UINT or numeric STRING returns its value; an
overflowing UINT token fails with the overflow `ParseError` naming the
value, the maximum and the original text; but an overflowing STRING token
trips the source's own `assert isinstance(token.value, int)` and fails with
`AssertionError` instead of the promised overflow report — the failing input
of the code bug. -/
theorem C8_overflow_behaviour :
    extract_token_num (uintTok 65535 1) 16 1 = .ok 65535 ∧
    extract_token_num (uintTok 65536 1) 16 1 =
      .error (.parseError
        ("Number or string 65536 is too large. The max size for this operand is 65535. The orignal text was 65536.")
        1) ∧
    extract_token_num (strTok "5" "5" 1) 16 1 = .ok 5 ∧
    extract_token_num (strTok "65536" "65536" 1) 16 1 = .error PyExc.assertError :=
  ⟨rfl, rfl, rfl, rfl⟩

/-- Claim C9: the pointer-dereference round-trip examples — `[R1]` gives
increment 0, `[R1 + 5]` gives immediate increment 5, `[R1 + R2 << 3]` gives
a shift increment (the 16-bit immediate parse fails on the three tokens and
the `Shift` parse, tried second, wins), and an increment on which both
candidate parsers fail raises the invalid-increment failure built from the
combined original text. -/
theorem C9_pointer_deref_round_trip :
    parse_PointerDeref
      [synTok Syn.lbrack 1, regTok Reg.R1 1, synTok Syn.rbrack 1] 1 =
      .ok ⟨Reg.R1, .inl 0⟩ ∧
    parse_PointerDeref
      [synTok Syn.lbrack 1, regTok Reg.R1 1, synTok Syn.plus 1,
       uintTok 5 1, synTok Syn.rbrack 1] 1 =
      .ok ⟨Reg.R1, .inl 5⟩ ∧
    parse_PointerDeref
      [synTok Syn.lbrack 1, regTok Reg.R1 1, synTok Syn.plus 1,
       regTok Reg.R2 1, synTok Syn.shl 1, uintTok 3 1, synTok Syn.rbrack 1] 1 =
      .ok ⟨Reg.R1, .inr ⟨ShiftType.shl, Reg.R2, 3⟩⟩ ∧
    parse_PointerDeref
      [synTok Syn.lbrack 1, regTok Reg.R1 1, synTok Syn.plus 1,
       synTok Syn.lbrack 1, synTok Syn.rbrack 1] 1 =
      .error (.parseError "Increment \"[\" is invalid" 1) :=
  ⟨rfl, rfl, rfl, rfl⟩

/-- Claim C10, counterexample: for the slice `5 7` the second token is
neither `<<` nor `>>`, yet the Shift parser does not fail with the
invalid-shift-operator error (`"Invalid operator 7"`): the first token is
parsed as a register before the operator is examined, so the failure is the
wrong-token-type error for the first token. -/
theorem C10_counterexample :
    parse_Shift [uintTok 5 1, uintTok 7 1] 1 =
      .error (.parseError "Token \"5\" instead of register" 1) ∧
    ("Token \"5\" instead of register" : String) ≠ "Invalid operator 7" :=
  ⟨rfl, by decide⟩

/-- Claim C5: processing a label-definition line records exactly `ip + 1` as
the label's address (everything else unchanged), and on the program whose
first line is the well-formed `ADD R1, R2, R3` and whose second line defines
`loop`, the returned symbol table maps `loop` to 33. -/
theorem C5_label_address_ip_plus_one :
    (∀ (s : ParseState) (name : String) (l : Nat),
        (stepLine s (mkLabelLine name l)).map
          (fun s2 => dictLookup s2.symbol_table name) =
          .ok (some (s.ip + 1))) ∧
    parse [addLine 1, mkLabelLine "loop" 2] = .ok ⟨[addInstr], [("loop", 33)]⟩ := by
  constructor
  · intro s name l
    have hstep : stepLine s (mkLabelLine name l) =
        .ok ⟨s.instructions, dictInsert s.symbol_table name (s.ip + 1), s.ip, s.errors⟩ := rfl
    rw [hstep]
    simp [Except.map, dictLookup_dictInsert]
  · rfl

/-- Claim C6: for every line that is not a label definition (its last token
is not the `:` syntax token), one step advances the instruction pointer by
exactly 32, whatever else happens — the advance precedes arity validation
and operand parsing, so the state observable at any raise already carries
it; consequently a malformed `ADD` line with no operands still consumes 32
address units and a label on the following line records address 33. -/
theorem C6_ip_advances_32_unconditionally :
    (∀ (s : ParseState) (t0 : Token) (rest : List Token),
        (List.getLastD (t0 :: rest) t0).value ≠ TokenValue.syn Syn.colon →
        ipAfter (stepLine s (t0 :: rest)) = s.ip + 32) ∧
    dictLookup (finalState [[instrTok ADD 1], mkLabelLine "L" 2]).symbol_table "L" =
      some 33 ∧
    recordedErrors [[instrTok ADD 1], mkLabelLine "L" 2] ≠ [] := by
  refine ⟨?_, rfl, by decide⟩
  intro s t0 rest h
  simp only [stepLine]
  rw [if_neg h]
  by_cases ht : t0.type = TokenType.INSTRUCTION
  · rw [if_pos ht]
    cases hv : t0.value with
    | instr op =>
      cases hp : parse_args op.value (comma_split rest) with
      | error e =>
        by_cases hm : (comma_split rest).length ≠ op.value.length
        · simp [ipAfter, hp, hm]
        · simp [ipAfter, hp, hm]
      | ok args =>
        by_cases hm : (comma_split rest).length ≠ op.value.length
        · simp [ipAfter, hp, hm]
        · simp [ipAfter, hp, hm]
    | reg r => simp [ipAfter]
    | uint n => simp [ipAfter]
    | str a => simp [ipAfter]
    | syn a => simp [ipAfter]
    | label a => simp [ipAfter]
  · rw [if_neg ht]
    simp [ipAfter]

/-- Witness for C6: the malformed line `ADD` (no operands) advances the
instruction pointer from 0 to 32. -/
theorem C6_witness :
    ipAfter (stepLine initState [instrTok ADD 1]) = initState.ip + 32 :=
  C6_ip_advances_32_unconditionally.1 initState (instrTok ADD 1) [] (by decide)

/-- Claim C7: a later label definition with the same name silently
overwrites the earlier recorded address (dict assignment replaces the
value), and a file defining the same label before and after one instruction
parses successfully — no duplicate-label error — with the symbol table
mapping the name to the later address 33. -/
theorem C7_duplicate_label_overwrites :
    (∀ (d : List (String × Nat)) (n : String) (v1 v2 : Nat),
        dictLookup (dictInsert (dictInsert d n v1) n v2) n = some v2) ∧
    (∀ (name : String) (l1 l2 l3 : Nat),
        parse [mkLabelLine name l1, addLine l2, mkLabelLine name l3] =
          .ok ⟨[addInstr], [(name, 33)]⟩) := by
  constructor
  · intro d n v1 v2
    exact dictLookup_dictInsert (dictInsert d n v1) n v2
  · intro name l1 l2 l3
    have h1 : stepLine initState (mkLabelLine name l1) = .ok ⟨[], [(name, 1)], 0, []⟩ := rfl
    have h2 : stepLine ⟨[], [(name, 1)], 0, []⟩ (addLine l2) =
        .ok ⟨[addInstr], [(name, 1)], 32, []⟩ := rfl
    have h3 : stepLine ⟨[addInstr], [(name, 1)], 32, []⟩ (mkLabelLine name l3) =
        .ok ⟨[addInstr], dictInsert [(name, 1)] name 33, 32, []⟩ := rfl
    have h4 : dictInsert [(name, 1)] name 33 = [(name, 33)] := by
      simp [dictInsert]
    simp [parse, runLines, h1, h2, h3, h4]

/-- Claim C10 (amended): a shift-operand slice of exactly one register token
parses to the default `<<` shift of that register by 0; and when the first
token does parse as a register, a second token that is neither the `<<` nor
the `>>` syntax token makes the parser fail with the invalid-shift-operator
error (when the first token is not a register, its wrong-token-type failure
is raised before the operator is ever examined). -/
theorem C10_amended_shift_default_and_operator :
    (∀ (r : Reg) (l : Nat),
        parse_Shift [regTok r l] l = .ok ⟨ShiftType.shl, r, 0⟩) ∧
    (∀ (r : Reg) (t : Token) (rest2 : List Token) (l : Nat),
        t.value ≠ TokenValue.syn Syn.shr → t.value ≠ TokenValue.syn Syn.shl →
        parse_Shift (regTok r l :: t :: rest2) l =
          .error (.parseError ("Invalid operator " ++ t.text) l)) := by
  constructor
  · intro r l
    rfl
  · intro r t rest2 l h1 h2
    have hreg : registerParseTok (regTok r l) l = .ok r := rfl
    simp only [parse_Shift, empty_token_check, List.isEmpty_cons, Bool.false_eq_true,
      if_false, Except.bind]
    simp [parse_Shift, empty_token_check, hreg, h1, h2]
    rfl

/-- Witness for C10: the default case at `R1` and the invalid-operator case
at the slice `R1 7`. -/
theorem C10_witness :
    parse_Shift [regTok Reg.R1 1] 1 = .ok ⟨ShiftType.shl, Reg.R1, 0⟩ ∧
    parse_Shift [regTok Reg.R1 1, uintTok 7 1] 1 =
      .error (.parseError "Invalid operator 7" 1) := by
  constructor
  · exact C10_amended_shift_default_and_operator.1 Reg.R1 1
  · have h := C10_amended_shift_default_and_operator.2 Reg.R1 (uintTok 7 1) [] 1
      (by decide) (by decide)
    exact h

end AssemblerParser
